import Mathlib

/-!
Verification of the service-failover resilience layer.

Shallow embedding of the repository's Python sources:
  - failover/cache.py           (Cache over cachetools.TTLCache)
  - failover/circuit_breaker.py (CircuitBreaker)
  - failover/policies.py        (RetryPolicy.execute_with_retry)
  - failover/api.py             (APIService.request / _handle_response)
  - failover/manager.py         (FailoverManager.execute)
  - failover/service.py         (Service.health_check)

Python exceptions are modelled by the inductive type PyErr; fallible code
returns an Except value together with the updated state.  Wall-clock time is
passed explicitly to every operation that reads the clock.  I/O outcomes
(HTTP responses, DNS and ping probes) are oracle parameters.
-/

namespace Failover

/-- Model of the Python exception values that flow through the failover
package.  The constructor mirrors the concrete Python class:
valueError = builtins.ValueError, connectionError = builtins.ConnectionError,
clientResponseError = aiohttp.ClientResponseError,
requestException = requests.exceptions.RequestException,
keyError = builtins.KeyError, exception = builtins.Exception(msg). -/
inductive PyErr where
  | valueError (msg : String)
  | connectionError (msg : String)
  | clientResponseError (status : Nat) (msg : String)
  | requestException (msg : String)
  | keyError
  | exception (msg : String)
deriving DecidableEq, Repr

/-- Association-list lookup, modelling Python dict.get(key). -/
def alookup {κ α : Type} [DecidableEq κ] : List (κ × α) → κ → Option α
  | [], _ => none
  | e :: rest, k => if e.1 = k then some e.2 else alookup rest k

/-- Remove every binding of a key, helper for association-list update. -/
def aerase {κ α : Type} [DecidableEq κ] : List (κ × α) → κ → List (κ × α)
  | [], _ => []
  | e :: rest, k => if e.1 = k then aerase rest k else e :: aerase rest k

/-- Association-list update, modelling Python dict[key] = value. -/
def aset {κ α : Type} [DecidableEq κ] (l : List (κ × α)) (k : κ) (v : α) :
    List (κ × α) :=
  (k, v) :: aerase l k

theorem alookup_aset_self {κ α : Type} [DecidableEq κ]
    (l : List (κ × α)) (k : κ) (v : α) : alookup (aset l k v) k = some v := by
  simp [aset, alookup]

theorem alookup_aerase_ne {κ α : Type} [DecidableEq κ]
    (l : List (κ × α)) (k k' : κ) (h : k' ≠ k) :
    alookup (aerase l k) k' = alookup l k' := by
  induction l with
  | nil => rfl
  | cons e rest ih =>
    by_cases he : e.1 = k
    · have hne : ¬ e.1 = k' := fun hk => h (hk.symm.trans he)
      have h1 : aerase (e :: rest) k = aerase rest k := by simp [aerase, he]
      have h2 : alookup (e :: rest) k' = alookup rest k' := by
        simp [alookup, hne]
      rw [h1, h2, ih]
    · have h1 : aerase (e :: rest) k = e :: aerase rest k := by
        simp [aerase, he]
      rw [h1]
      by_cases he' : e.1 = k'
      · simp [alookup, he']
      · simp [alookup, he', ih]

theorem alookup_aset_ne {κ α : Type} [DecidableEq κ]
    (l : List (κ × α)) (k k' : κ) (v : α) (h : k' ≠ k) :
    alookup (aset l k v) k' = alookup l k' := by
  simp only [aset, alookup]
  rw [if_neg (fun hk => h hk.symm)]
  exact alookup_aerase_ne l k k' h

/-! ## Cache (failover/cache.py)

The Python Cache wraps cachetools.TTLCache(maxsize=100, ttl=ttl).  An entry
inserted at time t is live while now < t + ttl.  get returns the live value
or None; set uses TTLCache.setdefault, so a live entry is never overwritten.
The maxsize-100 capacity eviction of TTLCache is not modelled: it lives in
the third-party cachetools library, and spec section 4.1 leaves the exact
eviction policy unspecified. -/

structure Cache where
  ttl : Nat
  entries : List (String × String × Nat)
deriving DecidableEq, Repr

/-- Cache.get: the stored body if the entry exists and has not expired,
otherwise None (cache.py lines 23-32). -/
def Cache.get (c : Cache) (now : Nat) (key : String) : Option String :=
  match alookup c.entries key with
  | some (v, t) => if now < t + c.ttl then some v else none
  | none => none

/-- Cache.set: self.cache.setdefault(key, value) — inserts only when no live
entry for the key exists (cache.py lines 34-42). -/
def Cache.set (c : Cache) (now : Nat) (key value : String) : Cache :=
  match c.get now key with
  | some _ => c
  | none => { c with entries := aset c.entries key (value, now) }

/-- Apply a sequence of set operations, each tagged with its wall-clock
time, to a cache. -/
def applySets (c : Cache) : List (Nat × String × String) → Cache
  | [] => c
  | (t, k, v) :: rest => applySets (c.set t k v) rest

theorem Cache.set_ttl (c : Cache) (t : Nat) (k v : String) :
    (c.set t k v).ttl = c.ttl := by
  unfold Cache.set
  cases c.get t k <;> rfl

theorem Cache.set_preserves_live_entry (c : Cache) (k v : String) (tt : Nat)
    (t : Nat) (k' v' : String)
    (hlk : alookup c.entries k = some (v, tt))
    (hlive : t < tt + c.ttl) :
    alookup (c.set t k' v').entries k = some (v, tt) := by
  unfold Cache.set
  cases hg : c.get t k' with
  | some w => exact hlk
  | none =>
    by_cases hk : k = k'
    · exfalso
      subst hk
      unfold Cache.get at hg
      rw [hlk] at hg
      simp [hlive] at hg
    · simpa using (alookup_aset_ne c.entries k' k (v', t) hk).trans hlk

theorem applySets_preserves_live_entry (k v : String) (tt : Nat) (bound : Nat) :
    ∀ (ops : List (Nat × String × String)) (c : Cache),
    alookup c.entries k = some (v, tt) →
    bound < tt + c.ttl →
    (∀ op ∈ ops, op.1 ≤ bound) →
    alookup (applySets c ops).entries k = some (v, tt) ∧
      (applySets c ops).ttl = c.ttl := by
  intro ops
  induction ops with
  | nil => intro c h _ _; exact ⟨h, rfl⟩
  | cons op rest ih =>
    intro c h hb hops
    obtain ⟨t, k', v'⟩ := op
    have ht : t ≤ bound := hops (t, k', v') (List.mem_cons_self _ _)
    have hstep := Cache.set_preserves_live_entry c k v tt t k' v' h
      (lt_of_le_of_lt ht hb)
    have httl := Cache.set_ttl c t k' v'
    have := ih (c.set t k' v') hstep (by rw [httl]; exact hb)
      (fun op hop => hops op (List.mem_cons_of_mem _ hop))
    exact ⟨this.1, this.2.trans httl⟩

/-- C7: Cache.set is first-writer-wins — once get(k) = v with v ≠ ∅ inside
the TTL window of the entry (inserted at time tt, live while now < tt + ttl),
any later get(k) still inside that window returns the same v, no matter what
set operations (on k or on any other key) were applied in between. -/
theorem cache_first_writer_wins (c : Cache) (k v : String) (tt : Nat)
    (tq tq' : Nat) (ops : List (Nat × String × String))
    (hlk : alookup c.entries k = some (v, tt))
    (hq : tq < tt + c.ttl)
    (hops : ∀ op ∈ ops, op.1 ≤ tq')
    (hwin : tq' < tt + c.ttl) :
    c.get tq k = some v ∧ (applySets c ops).get tq' k = some v := by
  constructor
  · unfold Cache.get
    rw [hlk]
    simp [hq]
  · obtain ⟨hent, httl⟩ :=
      applySets_preserves_live_entry k v tt tq' ops c hlk hwin hops
    unfold Cache.get
    rw [hent, httl]
    simp [hwin]

/-- Concrete instantiation of cache_first_writer_wins: the value "v" stored
at time 0 with ttl 300 survives later set("k", "w") and set("j", "u") calls
and is still returned at time 40. -/
theorem cache_first_writer_wins_witness :
    (Cache.mk 300 [("k", ("v", 0))]).get 10 "k" = some "v" ∧
      (applySets (Cache.mk 300 [("k", ("v", 0))])
        [(20, "k", "w"), (30, "j", "u")]).get 40 "k" = some "v" :=
  cache_first_writer_wins (Cache.mk 300 [("k", ("v", 0))]) "k" "v" 0 10 40
    [(20, "k", "w"), (30, "j", "u")] (by decide) (by decide)
    (by decide) (by decide)

/-! ## CircuitBreaker (failover/circuit_breaker.py)

Services are identified by an abstract id (a Nat), mirroring the Python
dictionaries keyed by Service object identity.  The wall clock (time.time())
is passed explicitly as an Int to every operation that reads it. -/

inductive BState where
  | CLOSED
  | OPEN
  | HALF_OPEN
deriving DecidableEq, Repr

structure CircuitBreaker where
  failure_threshold : Nat
  recovery_time : Int
  failure_counts : List (Nat × Nat)
  last_failure_time : List (Nat × Int)
  state : List (Nat × BState)
deriving DecidableEq, Repr

/-- CircuitBreaker with the default configuration and empty dictionaries
(circuit_breaker.py lines 19-32; defaults failure_threshold 3,
recovery_time 60). -/
def CircuitBreaker.init (thr : Nat) (rt : Int) : CircuitBreaker :=
  ⟨thr, rt, [], [], []⟩

/-- self.state.get(service, 'CLOSED') (circuit_breaker.py line 126). -/
def CircuitBreaker.get_state (cb : CircuitBreaker) (s : Nat) : BState :=
  (alookup cb.state s).getD .CLOSED

/-- self.failure_counts.get(service, 0) (circuit_breaker.py line 135). -/
def CircuitBreaker.get_failure_count (cb : CircuitBreaker) (s : Nat) : Nat :=
  (alookup cb.failure_counts s).getD 0

/-- self.last_failure_time.get(service, 0) (circuit_breaker.py line 144). -/
def CircuitBreaker.get_last_failure_time (cb : CircuitBreaker) (s : Nat) :
    Int :=
  (alookup cb.last_failure_time s).getD 0

/-- CircuitBreaker.allow_request (circuit_breaker.py lines 71-88): returns
whether the request is admitted, plus the breaker after the possible
OPEN → HALF_OPEN transition performed on read. -/
def CircuitBreaker.allow_request (cb : CircuitBreaker) (now : Int) (s : Nat) :
    Bool × CircuitBreaker :=
  match (alookup cb.state s).getD .CLOSED with
  | .OPEN =>
    if now - cb.get_last_failure_time s > cb.recovery_time then
      (true, { cb with state := aset cb.state s .HALF_OPEN })
    else
      (false, cb)
  | _ => (true, cb)

/-- CircuitBreaker.record_success (circuit_breaker.py lines 90-98). -/
def CircuitBreaker.record_success (cb : CircuitBreaker) (s : Nat) :
    CircuitBreaker :=
  { cb with failure_counts := aset cb.failure_counts s 0,
            state := aset cb.state s .CLOSED }

/-- CircuitBreaker.record_failure (circuit_breaker.py lines 100-117):
count = failure_counts.get(service, 0) + 1; store it; stamp the failure
time; open the circuit when count >= failure_threshold. -/
def CircuitBreaker.record_failure (cb : CircuitBreaker) (now : Int) (s : Nat) :
    CircuitBreaker :=
  let count := (alookup cb.failure_counts s).getD 0 + 1
  let cb1 := { cb with failure_counts := aset cb.failure_counts s count,
                       last_failure_time := aset cb.last_failure_time s now }
  if cb.failure_threshold ≤ count then
    { cb1 with state := aset cb1.state s .OPEN }
  else
    cb1

/-- CircuitBreaker.call (circuit_breaker.py lines 34-69).  The wrapped
service invocation is an oracle outcome.  On a failing outcome the code runs
self.failure_counts[service] += 1, which raises KeyError when the service
has no entry in failure_counts. -/
def CircuitBreaker.call (cb : CircuitBreaker) (now : Int) (s : Nat)
    (outcome : Except PyErr String) : Except PyErr String × CircuitBreaker :=
  let step : CircuitBreaker → Except PyErr String × CircuitBreaker :=
    fun cb1 =>
      match outcome with
      | .ok r =>
        (.ok r, { cb1 with state := aset cb1.state s .CLOSED,
                           failure_counts := aset cb1.failure_counts s 0 })
      | .error e =>
        match alookup cb1.failure_counts s with
        | none => (.error .keyError, cb1)
        | some c =>
          let cb2 := { cb1 with
            failure_counts := aset cb1.failure_counts s (c + 1),
            last_failure_time := aset cb1.last_failure_time s now }
          if cb1.failure_threshold ≤ c + 1 then
            (.error e, { cb2 with state := aset cb2.state s .OPEN })
          else
            (.error e, cb2)
  match (alookup cb.state s).getD .CLOSED with
  | .OPEN =>
    if now - cb.get_last_failure_time s < cb.recovery_time then
      (.error (.exception "Circuit is open"), cb)
    else
      step { cb with state := aset cb.state s .HALF_OPEN }
  | _ => step cb

/-- A sequence of public CircuitBreaker operations. -/
inductive CBOp where
  | success (s : Nat)
  | failure (now : Int) (s : Nat)
  | allow (now : Int) (s : Nat)
deriving DecidableEq, Repr

/-- Run a sequence of recordSuccess / recordFailure / allowRequest
operations against a breaker. -/
def CircuitBreaker.run (cb : CircuitBreaker) : List CBOp → CircuitBreaker
  | [] => cb
  | .success s :: rest => (cb.record_success s).run rest
  | .failure now s :: rest => (cb.record_failure now s).run rest
  | .allow now s :: rest => ((cb.allow_request now s).2).run rest

/-- C5 counterexample: with the default failure_threshold = 3 and
recovery_time = 60 s, a sequence of recordFailure / allowRequest operations
in which every recorded failure was admitted by allowRequest drives
failure_count to 5 > failure_threshold + 1 = 4, refuting the claimed bound.
(Three failures trip the breaker; after each recovery window allowRequest
admits a HALF_OPEN probe whose failure increments the count again.) -/
theorem breaker_count_bound_counterexample :
    ((CircuitBreaker.init 3 60).run
        [.failure 1 0, .failure 2 0, .failure 3 0]).get_state 0 = .OPEN ∧
    (((CircuitBreaker.init 3 60).run
        [.failure 1 0, .failure 2 0, .failure 3 0]).allow_request 64 0).1
      = true ∧
    ((CircuitBreaker.init 3 60).run
        [.failure 1 0, .failure 2 0, .failure 3 0,
         .allow 64 0]).get_state 0 = .HALF_OPEN ∧
    (((CircuitBreaker.init 3 60).run
        [.failure 1 0, .failure 2 0, .failure 3 0, .allow 64 0,
         .failure 64 0]).allow_request 130 0).1 = true ∧
    ((CircuitBreaker.init 3 60).run
        [.failure 1 0, .failure 2 0, .failure 3 0, .allow 64 0, .failure 64 0,
         .allow 130 0, .failure 130 0]).get_failure_count 0 = 5 ∧
    3 + 1 < 5 := by decide

/-- C5 amended: failure_count resets to 0 on recordSuccess; recordFailure
always increments the stored count by exactly one (so the count after n
consecutive failures is n and is not bounded by failure_threshold + 1), and
the breaker trips to OPEN as soon as the incremented count reaches
failure_threshold. -/
theorem breaker_count_amended (cb : CircuitBreaker) (s : Nat) (now : Int) :
    (cb.record_success s).get_failure_count s = 0 ∧
    (cb.record_failure now s).get_failure_count s
      = cb.get_failure_count s + 1 ∧
    (cb.failure_threshold ≤ cb.get_failure_count s + 1 →
      (cb.record_failure now s).get_state s = .OPEN) := by
  refine ⟨?_, ?_, ?_⟩
  · simp [CircuitBreaker.record_success, CircuitBreaker.get_failure_count,
      alookup_aset_self]
  · unfold CircuitBreaker.record_failure CircuitBreaker.get_failure_count
    by_cases hth : cb.failure_threshold
        ≤ (alookup cb.failure_counts s).getD 0 + 1 <;>
      simp [hth, alookup_aset_self]
  · intro h
    unfold CircuitBreaker.get_failure_count at h
    unfold CircuitBreaker.record_failure CircuitBreaker.get_state
    rw [if_pos h]
    simp [alookup_aset_self]

/-- Concrete instantiation of breaker_count_amended: after two recorded
failures the third recordFailure reaches the default threshold 3 and opens
the circuit. -/
theorem breaker_count_amended_witness :
    (((CircuitBreaker.init 3 60).run
        [.failure 1 0, .failure 2 0]).record_failure 5 0).get_state 0
      = .OPEN :=
  (breaker_count_amended
    ((CircuitBreaker.init 3 60).run [.failure 1 0, .failure 2 0]) 0 5).2.2
    (by decide)

/-- C6 counterexample: a breaker driven to HALF_OPEN through the public API
(three admitted failures, then an allowRequest after the recovery window)
has failure_count 3; recordFailure in HALF_OPEN sets the count to 4 instead
of leaving it as-is, refuting the "count left as-is" clause. -/
theorem breaker_halfopen_counterexample :
    ((CircuitBreaker.init 3 60).run
        [.failure 1 0, .failure 2 0, .failure 3 0,
         .allow 64 0]).get_state 0 = .HALF_OPEN ∧
    ((CircuitBreaker.init 3 60).run
        [.failure 1 0, .failure 2 0, .failure 3 0,
         .allow 64 0]).get_failure_count 0 = 3 ∧
    (((CircuitBreaker.init 3 60).run
        [.failure 1 0, .failure 2 0, .failure 3 0,
         .allow 64 0]).record_failure 64 0).get_failure_count 0 = 4 := by
  decide

/-- C6 amended: for a breaker in HALF_OPEN, recordSuccess transitions to
CLOSED with failure_count = 0; recordFailure increments failure_count
(rather than leaving it as-is), stamps last_failure_time, and transitions to
OPEN whenever the incremented count reaches failure_threshold (which is
always the case for HALF_OPEN states reached through the public API). -/
theorem breaker_halfopen_amended (cb : CircuitBreaker) (s : Nat) (now : Int)
    (h : cb.get_state s = .HALF_OPEN) :
    (cb.record_success s).get_state s = .CLOSED ∧
    (cb.record_success s).get_failure_count s = 0 ∧
    (cb.record_failure now s).get_failure_count s
      = cb.get_failure_count s + 1 ∧
    (cb.record_failure now s).get_last_failure_time s = now ∧
    (cb.failure_threshold ≤ cb.get_failure_count s + 1 →
      (cb.record_failure now s).get_state s = .OPEN) := by
  refine ⟨?_, ?_, ?_, ?_, ?_⟩
  · simp [CircuitBreaker.record_success, CircuitBreaker.get_state,
      alookup_aset_self]
  · simp [CircuitBreaker.record_success, CircuitBreaker.get_failure_count,
      alookup_aset_self]
  · unfold CircuitBreaker.record_failure CircuitBreaker.get_failure_count
    by_cases hth : cb.failure_threshold
        ≤ (alookup cb.failure_counts s).getD 0 + 1 <;>
      simp [hth, alookup_aset_self]
  · unfold CircuitBreaker.record_failure CircuitBreaker.get_last_failure_time
    by_cases hth : cb.failure_threshold
        ≤ (alookup cb.failure_counts s).getD 0 + 1 <;>
      simp [hth, alookup_aset_self]
  · intro hth
    unfold CircuitBreaker.get_failure_count at hth
    unfold CircuitBreaker.record_failure CircuitBreaker.get_state
    rw [if_pos hth]
    simp [alookup_aset_self]

/-- Concrete instantiation of breaker_halfopen_amended at a HALF_OPEN
breaker reached through the public API: the failure increments the count
from 3 to 4 and reopens the circuit. -/
theorem breaker_halfopen_amended_witness :
    (((CircuitBreaker.init 3 60).run
        [.failure 1 0, .failure 2 0, .failure 3 0,
         .allow 64 0]).record_failure 64 0).get_failure_count 0 = 4 ∧
    (((CircuitBreaker.init 3 60).run
        [.failure 1 0, .failure 2 0, .failure 3 0,
         .allow 64 0]).record_failure 64 0).get_state 0 = .OPEN :=
  ⟨((breaker_halfopen_amended
      ((CircuitBreaker.init 3 60).run
        [.failure 1 0, .failure 2 0, .failure 3 0, .allow 64 0]) 0 64
      (by decide)).2.2.1).trans (by decide),
   (breaker_halfopen_amended
      ((CircuitBreaker.init 3 60).run
        [.failure 1 0, .failure 2 0, .failure 3 0, .allow 64 0]) 0 64
      (by decide)).2.2.2.2 (by decide)⟩

/-- C9: for a Service with no entry in failure_counts (never a recorded
success or failure, hence also no state entry), CircuitBreaker.call on a
failing wrapped invocation raises KeyError from
self.failure_counts[service] += 1 instead of recording the failure and
re-raising the service's error; the breaker dictionaries are untouched. -/
theorem call_keyerror_on_fresh (cb : CircuitBreaker) (now : Int) (s : Nat)
    (e : PyErr)
    (hc : alookup cb.failure_counts s = none)
    (hs : alookup cb.state s = none) :
    cb.call now s (.error e) = (.error .keyError, cb) := by
  unfold CircuitBreaker.call
  rw [hs]
  simp [hc]

/-- Concrete instantiation of call_keyerror_on_fresh on a freshly
initialised breaker. -/
theorem call_keyerror_on_fresh_witness :
    (CircuitBreaker.init 3 60).call 0 0 (.error (.connectionError "boom"))
      = (.error .keyError, CircuitBreaker.init 3 60) :=
  call_keyerror_on_fresh (CircuitBreaker.init 3 60) 0 0
    (.connectionError "boom") rfl rfl

/-! ## RetryPolicy (failover/policies.py)

execute_with_retry(func, ...) runs func up to max_attempts times.  The
except clause catches exactly (ConnectionError,
requests.exceptions.RequestException); any other exception propagates
immediately.  After a caught failure it sleeps
base_delay * 2 ^ attempt + random.uniform(0, jitter) and continues — note
the sleep also happens when the caught failure was the final attempt.  When
the loop ends it raises Exception("Max retry attempts reached.").  The
wrapped function is an oracle from the attempt index to its outcome; the
random jitter draw is an oracle from the attempt index to a rational. -/

structure RetryPolicy where
  max_attempts : Nat
  base_delay : ℚ
  jitter : ℚ
deriving DecidableEq, Repr

/-- The exception classes caught by the except clause of
execute_with_retry (policies.py line 25): builtins.ConnectionError and
requests.exceptions.RequestException. -/
def retriable : PyErr → Bool
  | .connectionError _ => true
  | .requestException _ => true
  | _ => false

deriving instance DecidableEq for Except

/-- Observable trace of one execute_with_retry run: the returned value or
raised exception, the number of invocations of the wrapped function, and
the backoff sleeps in order. -/
structure RetryTrace where
  result : Except PyErr String
  calls : Nat
  sleeps : List ℚ
deriving DecidableEq, Repr

/-- The retry loop of execute_with_retry (policies.py lines 21-30), indexed
by the current attempt number and the remaining number of attempts. -/
def retryLoop (p : RetryPolicy) (f : Nat → Except PyErr String)
    (jit : Nat → ℚ) : Nat → Nat → RetryTrace
  | _, 0 => ⟨.error (.exception "Max retry attempts reached."), 0, []⟩
  | attempt, r + 1 =>
    match f attempt with
    | .ok v => ⟨.ok v, 1, []⟩
    | .error e =>
      if retriable e then
        let d := p.base_delay * 2 ^ attempt + jit attempt
        let t := retryLoop p f jit (attempt + 1) r
        ⟨t.result, t.calls + 1, d :: t.sleeps⟩
      else
        ⟨.error e, 1, []⟩

/-- RetryPolicy.execute_with_retry (policies.py lines 20-30). -/
def RetryPolicy.execute_with_retry (p : RetryPolicy)
    (f : Nat → Except PyErr String) (jit : Nat → ℚ) : RetryTrace :=
  retryLoop p f jit 0 p.max_attempts

theorem retryLoop_all_fail (p : RetryPolicy) (f : Nat → Except PyErr String)
    (jit : Nat → ℚ) :
    ∀ (r a : Nat),
    (∀ i, a ≤ i → i < a + r → ∃ e, f i = .error e ∧ retriable e = true) →
    (retryLoop p f jit a r).result
        = .error (.exception "Max retry attempts reached.") ∧
      (retryLoop p f jit a r).calls = r ∧
      (retryLoop p f jit a r).sleeps.length = r := by
  intro r
  induction r with
  | zero => intro a _; exact ⟨rfl, rfl, rfl⟩
  | succ r ih =>
    intro a h
    obtain ⟨e, hfe, hre⟩ := h a (Nat.le_refl a) (by omega)
    have hrest := ih (a + 1) (fun i h1 h2 => h i (by omega) (by omega))
    unfold retryLoop
    rw [hfe]
    simp only [hre, if_pos, List.length_cons]
    exact ⟨hrest.1, by rw [hrest.2.1], by rw [hrest.2.2]⟩

theorem retryLoop_first_ok (p : RetryPolicy) (f : Nat → Except PyErr String)
    (jit : Nat → ℚ) :
    ∀ (k : Nat) (r a : Nat) (v : String),
    k < r →
    (∀ i, a ≤ i → i < a + k → ∃ e, f i = .error e ∧ retriable e = true) →
    f (a + k) = .ok v →
    (retryLoop p f jit a r).result = .ok v ∧
      (retryLoop p f jit a r).calls = k + 1 ∧
      (retryLoop p f jit a r).sleeps.length = k := by
  intro k
  induction k with
  | zero =>
    intro r a v hr _ hok
    obtain ⟨r', rfl⟩ : ∃ r', r = r' + 1 :=
      ⟨r - 1, by omega⟩
    rw [Nat.add_zero] at hok
    unfold retryLoop
    rw [hok]
    exact ⟨rfl, rfl, rfl⟩
  | succ k ih =>
    intro r a v hr hfail hok
    obtain ⟨r', rfl⟩ : ∃ r', r = r' + 1 := ⟨r - 1, by omega⟩
    obtain ⟨e, hfe, hre⟩ := hfail a (Nat.le_refl a) (by omega)
    have hrest := ih r' (a + 1) v (by omega)
      (fun i h1 h2 => hfail i (by omega) (by omega))
      (by rw [show a + 1 + k = a + (k + 1) by omega]; exact hok)
    unfold retryLoop
    rw [hfe]
    simp only [hre, if_pos]
    exact ⟨hrest.1, by rw [← hrest.2.1], by
      simp only [List.length_cons, hrest.2.2]⟩

/-- C2 counterexample: with the default max_attempts = 3, a function whose
every invocation fails with a retriable ConnectionError is invoked 3 times
but the policy sleeps 3 times (once after every failed attempt, including
the last), not the claimed 3 - 1 = 2 times; and the terminal exception is
the constant Exception("Max retry attempts reached.") — identical for two
different last errors, so it carries no last error. -/
theorem retry_exhaustion_counterexample :
    ((RetryPolicy.mk 3 1 (1/2)).execute_with_retry
        (fun _ => .error (.connectionError "boom")) (fun _ => 0)).calls
      = 3 ∧
    ((RetryPolicy.mk 3 1 (1/2)).execute_with_retry
        (fun _ => .error (.connectionError "boom")) (fun _ => 0)).sleeps.length
      = 3 ∧
    ¬ ((RetryPolicy.mk 3 1 (1/2)).execute_with_retry
        (fun _ => .error (.connectionError "boom")) (fun _ => 0)).sleeps.length
      = 3 - 1 ∧
    ((RetryPolicy.mk 3 1 (1/2)).execute_with_retry
        (fun _ => .error (.connectionError "boom")) (fun _ => 0)).result
      = .error (.exception "Max retry attempts reached.") ∧
    ((RetryPolicy.mk 3 1 (1/2)).execute_with_retry
        (fun _ => .error (.connectionError "zap")) (fun _ => 0)).result
      = .error (.exception "Max retry attempts reached.") := by
  refine ⟨by decide, by decide, by decide, by decide, by decide⟩

/-- C2 amended: when every invocation fails with a retriable error,
execute_with_retry invokes fn exactly max_attempts times, sleeps exactly
max_attempts times (once after every failed attempt, including the final
one), and then fails with the constant
Exception("Max retry attempts reached."), which does not carry the last
error; if the invocations up to some k < max_attempts fail retriably and
invocation k succeeds, its result is returned after exactly k + 1 calls and
k sleeps. -/
theorem retry_exhaustion_amended (p : RetryPolicy)
    (f : Nat → Except PyErr String) (jit : Nat → ℚ) :
    ((∀ i, i < p.max_attempts → ∃ e, f i = .error e ∧ retriable e = true) →
      (p.execute_with_retry f jit).result
          = .error (.exception "Max retry attempts reached.") ∧
        (p.execute_with_retry f jit).calls = p.max_attempts ∧
        (p.execute_with_retry f jit).sleeps.length = p.max_attempts) ∧
    (∀ k v, k < p.max_attempts →
      (∀ i, i < k → ∃ e, f i = .error e ∧ retriable e = true) →
      f k = .ok v →
      (p.execute_with_retry f jit).result = .ok v ∧
        (p.execute_with_retry f jit).calls = k + 1 ∧
        (p.execute_with_retry f jit).sleeps.length = k) := by
  constructor
  · intro h
    unfold RetryPolicy.execute_with_retry
    exact retryLoop_all_fail p f jit p.max_attempts 0
      (fun i h1 h2 => h i (by omega))
  · intro k v hk hfail hok
    unfold RetryPolicy.execute_with_retry
    exact retryLoop_first_ok p f jit k p.max_attempts 0 v hk
      (fun i h1 h2 => hfail i (by omega)) (by simpa using hok)

/-- Concrete instantiation of retry_exhaustion_amended: two permanently
failing attempts with max_attempts = 2 give 2 calls, and a policy whose
first attempt succeeds returns that value. -/
theorem retry_exhaustion_amended_witness :
    ((RetryPolicy.mk 2 1 0).execute_with_retry
        (fun _ => .error (.connectionError "x")) (fun _ => 0)).calls = 2 ∧
    ((RetryPolicy.mk 3 1 0).execute_with_retry
        (fun _ => .ok "v") (fun _ => 0)).result = .ok "v" :=
  ⟨((retry_exhaustion_amended (RetryPolicy.mk 2 1 0)
      (fun _ => .error (.connectionError "x")) (fun _ => 0)).1
      (fun i _ => ⟨.connectionError "x", rfl, rfl⟩)).2.1,
   ((retry_exhaustion_amended (RetryPolicy.mk 3 1 0)
      (fun _ => .ok "v") (fun _ => 0)).2 0 "v" (by decide)
      (fun i hi => absurd hi (by omega)) rfl).1⟩

/-! ## APIService.request (failover/api.py)

The HTTP layer is an oracle: a list of outcomes, one consumed per HTTP
request actually issued.  The connection pool, rate limiter and metrics
are no-ops for the values modelled here (they gate timing only).  The
request records every invocation of request() with its arguments, every
Retry-After sleep, and the number of HTTP requests issued. -/

/-- DEFAULT_RETRY_AFTER constant (api.py line 19, fallback 60 s). -/
def DEFAULT_RETRY_AFTER : Nat := 60

/-- HTTP_METHODS constant (api.py line 20). -/
def HTTP_METHODS : List String := ["GET", "POST", "PUT", "DELETE"]

/-- The arguments of one invocation of APIService.request.  params and data
are kept in their Python str() serialised form, as used by the cache key. -/
structure ReqCall where
  endpoint : String
  method : String
  params : Option String
  data : Option String
deriving DecidableEq, Repr

/-- Python str() of an optional value: None prints as "None". -/
def pyStr : Option String → String
  | none => "None"
  | some s => s

/-- The fingerprint cache key
f"{method}:{endpoint}:{str(params)}:{str(data)}" (api.py line 59). -/
def cacheKey (c : ReqCall) : String :=
  c.method ++ ":" ++ c.endpoint ++ ":" ++ pyStr c.params ++ ":" ++
    pyStr c.data

/-- Outcome of one issued HTTP request: a response (status, optional
integer Retry-After header, body text), an asyncio timeout, or an
aiohttp.ClientError transport failure. -/
inductive HttpOutcome where
  | httpResponse (status : Nat) (retry_after : Option Nat) (body : String)
  | httpTimeout
  | httpClientError (msg : String)
deriving DecidableEq, Repr

/-- Oracle environment of a request: the health-check verdict per
request() invocation index (none = healthy, some msg = unhealthy with that
probe error message). -/
structure ReqEnv where
  health : Nat → Option String

/-- Observable state threaded through a request: the service cache, the
wall clock (advanced by Retry-After sleeps), the recorded request()
invocations with their arguments, the Retry-After sleeps, and the number
of HTTP requests issued. -/
structure ReqState where
  cache : Cache
  now : Nat
  invocations : List ReqCall
  sleeps : List Nat
  httpIssues : Nat
deriving DecidableEq, Repr

/-- APIService.request (api.py lines 39-93) together with
_handle_response (lines 121-143).  Control flow of the source:
method validation (ValueError), health gate (ConnectionError), cache
lookup tested with Python truthiness (an empty string is a miss), then
pool/limiter/HTTP.  _handle_response: on 429 read Retry-After (default
DEFAULT_RETRY_AFTER), sleep, and recursively call self.request(endpoint) —
dropping method, params and data; on status >= 400 raise_for_status gives
aiohttp.ClientResponseError, re-raised and then caught by request's
except aiohttp.ClientError clause (ClientResponseError is a ClientError
subclass) which wraps it as ConnectionError("Client error: ...") — the
model keeps only the status in that message; otherwise return the body
text and cache it under the fingerprint via Cache.set.  asyncio.TimeoutError
becomes ConnectionError("Request timed out"); other aiohttp.ClientError
becomes ConnectionError("Client error: " ++ msg).  When the oracle list is
exhausted the model returns a designated modelling artefact error (never
reached in the theorems below, whose oracles supply enough outcomes). -/
def preHttp (env : ReqEnv) (c : ReqCall) (st0 : ReqState)
    (issue : ReqState → String → Except PyErr String × ReqState) :
    Except PyErr String × ReqState :=
  let idx := st0.invocations.length
  let st := { st0 with invocations := st0.invocations ++ [c] }
  if c.method ∈ HTTP_METHODS then
    match env.health idx with
    | some msg =>
      (.error (.connectionError ("Service is unhealthy: " ++ msg)), st)
    | none =>
      let key := cacheKey c
      match st.cache.get st.now key with
      | some v => if v = "" then issue st key else (.ok v, st)
      | none => issue st key
  else
    (.error (.valueError ("Unsupported HTTP method: " ++ c.method)), st)

/-- The HTTP issue and response handling of request/_handle_response,
consuming the head of the HTTP oracle; see the doc comment above.  The
preHttp part (validation, health gate, truthiness cache lookup) is split
out only so that the recursion is structural in the oracle list. -/
def requestModel (env : ReqEnv) :
    List HttpOutcome → ReqCall → ReqState → Except PyErr String × ReqState
  | [], c, st0 =>
    preHttp env c st0
      (fun st _ => (.error (.exception "model: HTTP oracle exhausted"), st))
  | o :: rest, c, st0 =>
    preHttp env c st0 (fun st key =>
      let st1 := { st with httpIssues := st.httpIssues + 1 }
      match o with
      | .httpTimeout =>
        (.error (.connectionError "Request timed out"), st1)
      | .httpClientError m =>
        (.error (.connectionError ("Client error: " ++ m)), st1)
      | .httpResponse status ra body =>
        if status = 429 then
          let w := ra.getD DEFAULT_RETRY_AFTER
          let st2 := { st1 with sleeps := st1.sleeps ++ [w],
                                now := st1.now + w }
          match requestModel env rest ⟨c.endpoint, "GET", none, none⟩
              st2 with
          | (.ok result, st3) =>
            (.ok result,
              { st3 with cache := st3.cache.set st3.now key result })
          | (.error e, st3) => (.error e, st3)
        else if 400 ≤ status then
          (.error (.connectionError
            ("Client error: " ++ toString status)), st1)
        else
          (.ok body,
            { st1 with cache := st1.cache.set st1.now key body }))

/-- C4: evaluation of the modelled request at the failing input.  A
request("/x", method POST, params p, data d) answered first with
429 Retry-After: 5 and then with 200 "ok" does sleep 5 seconds and return
"ok", but the reissued call is request("/x") — method GET, params None,
data None — instead of the original POST with its params and body; a 429
without a Retry-After header sleeps the default 60 seconds. -/
theorem rate_limit_reissue_drops_args :
    (requestModel ⟨fun _ => none⟩
        [.httpResponse 429 (some 5) "", .httpResponse 200 none "ok"]
        ⟨"/x", "POST", some "p", some "d"⟩
        ⟨⟨300, []⟩, 0, [], [], 0⟩).1 = .ok "ok" ∧
    (requestModel ⟨fun _ => none⟩
        [.httpResponse 429 (some 5) "", .httpResponse 200 none "ok"]
        ⟨"/x", "POST", some "p", some "d"⟩
        ⟨⟨300, []⟩, 0, [], [], 0⟩).2.sleeps = [5] ∧
    (requestModel ⟨fun _ => none⟩
        [.httpResponse 429 (some 5) "", .httpResponse 200 none "ok"]
        ⟨"/x", "POST", some "p", some "d"⟩
        ⟨⟨300, []⟩, 0, [], [], 0⟩).2.invocations
      = [⟨"/x", "POST", some "p", some "d"⟩, ⟨"/x", "GET", none, none⟩] ∧
    ¬ (requestModel ⟨fun _ => none⟩
        [.httpResponse 429 (some 5) "", .httpResponse 200 none "ok"]
        ⟨"/x", "POST", some "p", some "d"⟩
        ⟨⟨300, []⟩, 0, [], [], 0⟩).2.invocations
      = [⟨"/x", "POST", some "p", some "d"⟩,
         ⟨"/x", "POST", some "p", some "d"⟩] ∧
    (requestModel ⟨fun _ => none⟩
        [.httpResponse 429 none "", .httpResponse 200 none "ok2"]
        ⟨"/y", "GET", none, none⟩
        ⟨⟨300, []⟩, 0, [], [], 0⟩).2.sleeps = [60] := by
  refine ⟨by decide, by decide, by decide, by decide, by decide⟩

/-- C10: when the live cached value under the request's fingerprint is the
empty string, Python's `if cached_response:` treats the lookup as a miss:
the request issues the HTTP call (httpIssues increments) and returns the
network body instead of the cached empty string. -/
theorem cached_empty_string_is_miss (env : ReqEnv) (c : ReqCall)
    (st : ReqState) (status : Nat) (ra : Option Nat) (body : String)
    (rest : List HttpOutcome)
    (hm : c.method ∈ HTTP_METHODS)
    (hh : env.health st.invocations.length = none)
    (hcache : st.cache.get st.now (cacheKey c) = some "")
    (hst : status < 400) (h429 : ¬ status = 429) :
    (requestModel env (.httpResponse status ra body :: rest) c st).1
        = .ok body ∧
    (requestModel env
        (.httpResponse status ra body :: rest) c st).2.httpIssues
        = st.httpIssues + 1 := by
  have h400 : ¬ 400 ≤ status := by omega
  simp only [requestModel, preHttp, hm, if_true, hh, hcache, h429, h400,
    if_false]
  exact ⟨trivial, trivial⟩

/-- Concrete instantiation of cached_empty_string_is_miss: with "" stored
live under "GET:/x:None:None", the request still issues HTTP and returns
the fresh body. -/
theorem cached_empty_string_is_miss_witness :
    (requestModel ⟨fun _ => none⟩ [.httpResponse 200 none "fresh"]
        ⟨"/x", "GET", none, none⟩
        ⟨⟨300, [("GET:/x:None:None", ("", 0))]⟩, 10, [], [], 0⟩).1
      = .ok "fresh" ∧
    (requestModel ⟨fun _ => none⟩ [.httpResponse 200 none "fresh"]
        ⟨"/x", "GET", none, none⟩
        ⟨⟨300, [("GET:/x:None:None", ("", 0))]⟩, 10, [], [], 0⟩).2.httpIssues
      = 0 + 1 :=
  cached_empty_string_is_miss ⟨fun _ => none⟩ ⟨"/x", "GET", none, none⟩
    ⟨⟨300, [("GET:/x:None:None", ("", 0))]⟩, 10, [], [], 0⟩ 200 none "fresh"
    [] (by decide) rfl (by decide) (by decide) (by decide)

/-- C3 counterexample: a request whose HTTP response is a plain 500 (no
429) produces ConnectionError("Client error: 500") — the
aiohttp.ClientResponseError raised by raise_for_status is re-caught by
request's except aiohttp.ClientError clause and wrapped — and that error IS
retriable for the RetryPolicy: with the default max_attempts = 3 the
wrapped request is invoked 3 times with 3 backoff sleeps instead of
surfacing immediately as the claim states. -/
theorem response_error_retried_counterexample :
    (requestModel ⟨fun _ => none⟩
        [.httpResponse 500 none "Internal Server Error"]
        ⟨"/x", "GET", none, none⟩ ⟨⟨300, []⟩, 0, [], [], 0⟩).1
      = .error (.connectionError "Client error: 500") ∧
    retriable (.connectionError "Client error: 500") = true ∧
    ((RetryPolicy.mk 3 1 (1/2)).execute_with_retry
        (fun _ => (requestModel ⟨fun _ => none⟩
          [.httpResponse 500 none "Internal Server Error"]
          ⟨"/x", "GET", none, none⟩ ⟨⟨300, []⟩, 0, [], [], 0⟩).1)
        (fun _ => 0)).calls = 3 ∧
    ((RetryPolicy.mk 3 1 (1/2)).execute_with_retry
        (fun _ => (requestModel ⟨fun _ => none⟩
          [.httpResponse 500 none "Internal Server Error"]
          ⟨"/x", "GET", none, none⟩ ⟨⟨300, []⟩, 0, [], [], 0⟩).1)
        (fun _ => 0)).sleeps.length = 3 ∧
    ((RetryPolicy.mk 3 1 (1/2)).execute_with_retry
        (fun _ => (requestModel ⟨fun _ => none⟩
          [.httpResponse 500 none "Internal Server Error"]
          ⟨"/x", "GET", none, none⟩ ⟨⟨300, []⟩, 0, [], [], 0⟩).1)
        (fun _ => 0)).result
      = .error (.exception "Max retry attempts reached.") := by
  refine ⟨by decide, by decide, by decide, by decide, by decide⟩

/-- C3 amended: the retry policy retries exactly the failures raised as
ConnectionError or requests RequestException; a first-attempt failure of
any other class (in particular the ValueError for an invalid method)
surfaces immediately after one call with no backoff sleep.  But a non-429
4xx/5xx response never reaches the retry policy as a ResponseError:
request wraps the aiohttp.ClientResponseError into
ConnectionError("Client error: ..."), which is classified retriable. -/
theorem non_retriable_surfaces_amended (p : RetryPolicy)
    (f : Nat → Except PyErr String) (jit : Nat → ℚ) (e : PyErr) :
    (f 0 = .error e → retriable e = false → 1 ≤ p.max_attempts →
      (p.execute_with_retry f jit).result = .error e ∧
        (p.execute_with_retry f jit).calls = 1 ∧
        (p.execute_with_retry f jit).sleeps = []) ∧
    (∀ (env : ReqEnv) (c : ReqCall) (st : ReqState) (status : Nat)
        (ra : Option Nat) (body : String) (rest : List HttpOutcome),
      c.method ∈ HTTP_METHODS →
      env.health st.invocations.length = none →
      st.cache.get st.now (cacheKey c) = none →
      400 ≤ status → ¬ status = 429 →
      (requestModel env (.httpResponse status ra body :: rest) c st).1
          = .error (.connectionError ("Client error: " ++ toString status))
        ∧ retriable
            (.connectionError ("Client error: " ++ toString status))
          = true) := by
  constructor
  · intro hf hre hmax
    obtain ⟨m, hm⟩ : ∃ m, p.max_attempts = m + 1 :=
      ⟨p.max_attempts - 1, by omega⟩
    unfold RetryPolicy.execute_with_retry
    rw [hm]
    unfold retryLoop
    rw [hf]
    simp [hre]
  · intro env c st status ra body rest hm hh hcache h400 h429
    simp only [requestModel, preHttp, hm, if_true, hh, hcache, h429, h400,
      if_false]
    exact ⟨trivial, rfl⟩

/-- Concrete instantiation of non_retriable_surfaces_amended: a ValueError
failure is not retried (one call), and a 503 response yields the retriable
ConnectionError("Client error: 503"). -/
theorem non_retriable_surfaces_amended_witness :
    ((RetryPolicy.mk 3 1 0).execute_with_retry
        (fun _ => .error (.valueError "Unsupported HTTP method: PATCH"))
        (fun _ => 0)).calls = 1 ∧
    (requestModel ⟨fun _ => none⟩ [.httpResponse 503 none "oops"]
        ⟨"/x", "GET", none, none⟩ ⟨⟨300, []⟩, 0, [], [], 0⟩).1
      = .error (.connectionError "Client error: 503") :=
  ⟨((non_retriable_surfaces_amended (RetryPolicy.mk 3 1 0)
      (fun _ => .error (.valueError "Unsupported HTTP method: PATCH"))
      (fun _ => 0) (.valueError "Unsupported HTTP method: PATCH")).1
      rfl rfl (by decide)).2.1,
   ((non_retriable_surfaces_amended (RetryPolicy.mk 3 1 0)
      (fun _ => .error (.valueError "Unsupported HTTP method: PATCH"))
      (fun _ => 0) (.valueError "Unsupported HTTP method: PATCH")).2
      ⟨fun _ => none⟩ ⟨"/x", "GET", none, none⟩ ⟨⟨300, []⟩, 0, [], [], 0⟩
      503 none "oops" [] (by decide) rfl rfl (by decide) (by decide)).1⟩

/-! ## FailoverManager (failover/manager.py)

Services are abstract ids in registration order.  The outcome of the
retry-wrapped service.request call is an oracle per service id (manager.py
treats retry_policy.execute_with_retry(service.request, ...) as a black
box that returns a value or raises).  The run also returns a trace of
events, one per service the loop reached, in order. -/

inductive FMEvent where
  | skipped (s : Nat)
  | succeeded (s : Nat)
  | failed (s : Nat)
deriving DecidableEq, Repr

/-- The service id an event concerns. -/
def FMEvent.service : FMEvent → Nat
  | .skipped s => s
  | .succeeded s => s
  | .failed s => s

/-- Whether the event is a success. -/
def FMEvent.isSucc : FMEvent → Bool
  | .succeeded _ => true
  | _ => false

/-- Whether an Except value is a success (Python: no exception raised). -/
def exceptIsOk : Except PyErr String → Bool
  | .ok _ => true
  | .error _ => false

/-- The service loop of FailoverManager.execute (manager.py lines 112-125):
for each service, skip when allow_request is false (which may itself move
the breaker OPEN → HALF_OPEN); otherwise invoke the wrapped call, record
the breaker outcome, return the first success, and fall through to the
terminal Exception("All services failed.") when the loop ends. -/
def executeLoop (now : Int) (results : Nat → Except PyErr String) :
    List Nat → CircuitBreaker →
      Except PyErr String × CircuitBreaker × List FMEvent
  | [], cb => (.error (.exception "All services failed."), cb, [])
  | s :: rest, cb =>
    match cb.allow_request now s with
    | (true, cb1) =>
      match results s with
      | .ok r => (.ok r, cb1.record_success s, [.succeeded s])
      | .error _ =>
        let out := executeLoop now results rest (cb1.record_failure now s)
        (out.1, out.2.1, .failed s :: out.2.2)
    | (false, cb1) =>
      let out := executeLoop now results rest cb1
      (out.1, out.2.1, .skipped s :: out.2.2)

/-- FailoverManager.execute (manager.py lines 98-125): empty registration
fails with Exception("No services registered."), otherwise the loop runs. -/
def FailoverManager.execute (services : List Nat) (cb : CircuitBreaker)
    (now : Int) (results : Nat → Except PyErr String) :
    Except PyErr String × CircuitBreaker × List FMEvent :=
  if services.isEmpty then
    (.error (.exception "No services registered."), cb, [])
  else
    executeLoop now results services cb

theorem executeLoop_spec (now : Int) (results : Nat → Except PyErr String) :
    ∀ (l : List Nat) (cb : CircuitBreaker),
    ((executeLoop now results l cb).2.2.map FMEvent.service
        = l.take (executeLoop now results l cb).2.2.length) ∧
    (∀ r, (executeLoop now results l cb).1 = .ok r →
      ∃ s pre, (executeLoop now results l cb).2.2 = pre ++ [.succeeded s] ∧
        pre.all (fun e => !e.isSucc) = true ∧
        results s = .ok r ∧
        (executeLoop now results l cb).2.1.get_state s = .CLOSED ∧
        (executeLoop now results l cb).2.1.get_failure_count s = 0) ∧
    (exceptIsOk (executeLoop now results l cb).1 = false →
      (executeLoop now results l cb).1
          = .error (.exception "All services failed.") ∧
        (executeLoop now results l cb).2.2.map FMEvent.service = l ∧
        (executeLoop now results l cb).2.2.all (fun e => !e.isSucc)
          = true) := by
  intro l
  induction l with
  | nil =>
    intro cb
    refine ⟨rfl, ?_, fun _ => ⟨rfl, rfl, rfl⟩⟩
    intro r hr
    exact absurd hr (by simp [executeLoop])
  | cons s rest ih =>
    intro cb
    rcases har : cb.allow_request now s with ⟨b, cb1⟩
    obtain ⟨ih1, ih2, ih3⟩ := ih cb1
    cases b with
    | false =>
      refine ⟨?_, ?_, ?_⟩
      · simp only [executeLoop, har, List.map_cons, List.length_cons,
          FMEvent.service, List.take_succ_cons]
        rw [ih1]
      · intro r hr
        simp only [executeLoop, har] at hr
        obtain ⟨s', pre, hdec, hall, hres, hstate, hcount⟩ := ih2 r hr
        refine ⟨s', .skipped s :: pre, ?_, ?_, hres, ?_, ?_⟩
        · simp only [executeLoop, har, hdec, List.cons_append]
        · rw [List.all_cons, hall]
          rfl
        · simpa only [executeLoop, har] using hstate
        · simpa only [executeLoop, har] using hcount
      · intro hko
        simp only [executeLoop, har] at hko ⊢
        obtain ⟨he, hmap, hall⟩ := ih3 hko
        refine ⟨he, ?_, ?_⟩
        · simp only [List.map_cons, FMEvent.service, hmap]
        · rw [List.all_cons, hall]
          rfl
    | true =>
      cases hres : results s with
      | ok r0 =>
        refine ⟨?_, ?_, ?_⟩
        · simp only [executeLoop, har, hres, List.map_cons, List.map_nil,
            List.length_cons, List.length_nil, FMEvent.service,
            List.take_succ_cons, List.take_zero]
        · intro r hr
          simp only [executeLoop, har, hres] at hr
          obtain rfl : r0 = r := by
            cases hr
            rfl
          refine ⟨s, [], ?_, rfl, hres, ?_, ?_⟩
          · simp only [executeLoop, har, hres, List.nil_append]
          · simp only [executeLoop, har, hres,
              CircuitBreaker.record_success, CircuitBreaker.get_state,
              alookup_aset_self, Option.getD_some]
          · simp only [executeLoop, har, hres,
              CircuitBreaker.record_success,
              CircuitBreaker.get_failure_count, alookup_aset_self,
              Option.getD_some]
        · intro hko
          simp only [executeLoop, har, hres, exceptIsOk] at hko
          exact Bool.noConfusion hko
      | error e =>
        obtain ⟨jh1, jh2, jh3⟩ := ih (cb1.record_failure now s)
        refine ⟨?_, ?_, ?_⟩
        · simp only [executeLoop, har, hres, List.map_cons,
            List.length_cons, FMEvent.service, List.take_succ_cons]
          rw [jh1]
        · intro r hr
          simp only [executeLoop, har, hres] at hr
          obtain ⟨s', pre, hdec, hall, hres', hstate, hcount⟩ := jh2 r hr
          refine ⟨s', .failed s :: pre, ?_, ?_, hres', ?_, ?_⟩
          · simp only [executeLoop, har, hres, hdec, List.cons_append]
          · rw [List.all_cons, hall]
            rfl
          · simpa only [executeLoop, har, hres] using hstate
          · simpa only [executeLoop, har, hres] using hcount
        · intro hko
          simp only [executeLoop, har, hres] at hko ⊢
          obtain ⟨he, hmap, hall⟩ := jh3 hko
          refine ⟨he, ?_, ?_⟩
          · simp only [List.map_cons, FMEvent.service, hmap]
          · rw [List.all_cons, hall]
            rfl

/-- C1 counterexample: when the single registered service always fails,
execute raises the constant Exception("All services failed.") — the same
value for two different last errors ("boom" and "zap"), so the terminal
error cannot be carrying the last error, refuting that clause of the
claim. -/
theorem failover_last_error_counterexample :
    (FailoverManager.execute [0] (CircuitBreaker.init 3 60) 0
        (fun _ => .error (.connectionError "boom"))).1
      = .error (.exception "All services failed.") ∧
    (FailoverManager.execute [0] (CircuitBreaker.init 3 60) 0
        (fun _ => .error (.connectionError "zap"))).1
      = .error (.exception "All services failed.") := by
  refine ⟨by decide, by decide⟩

/-- C1 amended: execute with no registered Services fails with
Exception("No services registered."); otherwise it walks the Services in
registration order (the event trace is exactly a prefix of the
registration list), returns the body of the earliest queried Service whose
wrapped call succeeds — the trace ends at that success, every earlier
event is a skip or failure, no later Service is touched, and the breaker
records the success — and when every Service is skipped or fails it fails
with the constant Exception("All services failed."), which does not carry
the last error. -/
theorem failover_execute_amended (services : List Nat) (cb : CircuitBreaker)
    (now : Int) (results : Nat → Except PyErr String) :
    (services = [] →
      FailoverManager.execute services cb now results
        = (.error (.exception "No services registered."), cb, [])) ∧
    ((FailoverManager.execute services cb now results).2.2.map
        FMEvent.service
      = services.take
          (FailoverManager.execute services cb now results).2.2.length) ∧
    (∀ r, (FailoverManager.execute services cb now results).1 = .ok r →
      ∃ s pre,
        (FailoverManager.execute services cb now results).2.2
            = pre ++ [.succeeded s] ∧
          pre.all (fun e => !e.isSucc) = true ∧
          results s = .ok r ∧
          (FailoverManager.execute services cb now results).2.1.get_state s
            = .CLOSED ∧
          (FailoverManager.execute
              services cb now results).2.1.get_failure_count s = 0) ∧
    (services ≠ [] →
      exceptIsOk (FailoverManager.execute services cb now results).1
          = false →
      (FailoverManager.execute services cb now results).1
          = .error (.exception "All services failed.") ∧
        (FailoverManager.execute services cb now results).2.2.map
            FMEvent.service = services ∧
        (FailoverManager.execute services cb now results).2.2.all
            (fun e => !e.isSucc) = true) := by
  by_cases hempty : services = []
  · subst hempty
    refine ⟨fun _ => rfl, rfl, ?_, fun hne _ => absurd rfl hne⟩
    intro r hr
    exact absurd hr (by simp [FailoverManager.execute])
  · have hni : services.isEmpty = false := by
      cases services with
      | nil => exact absurd rfl hempty
      | cons a l => rfl
    have hexec : FailoverManager.execute services cb now results
        = executeLoop now results services cb := by
      simp [FailoverManager.execute, hni]
    obtain ⟨h1, h2, h3⟩ := executeLoop_spec now results services cb
    rw [hexec]
    exact ⟨fun h => absurd h hempty, h1, h2, fun _ => h3⟩

/-- Concrete instantiation of failover_execute_amended: empty registration
fails with the no-services error, and a single always-failing service
yields the all-failed error. -/
theorem failover_execute_amended_witness :
    FailoverManager.execute [] (CircuitBreaker.init 3 60) 0
        (fun _ => .ok "v")
      = (.error (.exception "No services registered."),
          CircuitBreaker.init 3 60, []) ∧
    (FailoverManager.execute [7] (CircuitBreaker.init 3 60) 0
        (fun _ => .error (.connectionError "boom"))).1
      = .error (.exception "All services failed.") :=
  ⟨(failover_execute_amended [] (CircuitBreaker.init 3 60) 0
      (fun _ => .ok "v")).1 rfl,
   ((failover_execute_amended [7] (CircuitBreaker.init 3 60) 0
      (fun _ => .error (.connectionError "boom"))).2.2.2 (by decide)
      (by decide)).1⟩

/-! ## Service.health_check (failover/service.py)

The DNS and ping probes and the URL parse are oracles.  _check_dns and
_check_ping catch their own exceptions and return (ok, message, duration)
triples, so the only exception source inside health_check's try block is
the URL parsing step; that exception is caught and collapsed into
error_message.  Durations are oracle rationals (the model keeps them
abstract); the "High latency detected" message carries the formatted delay
in Python, kept as the bare message here. -/

/-- One probe sub-check of a HealthStatus (the dns_check / ping_check
dictionaries of service.py lines 32-33). -/
structure CheckInfo where
  status : Bool
  message : String
  duration : ℚ
deriving DecidableEq, Repr

/-- HealthStatus (service.py lines 29-44); the timestamp is omitted (no
claim concerns it). -/
structure HealthStatus where
  dns_check : CheckInfo
  ping_check : CheckInfo
  overall_status : Bool
  error_message : String
deriving DecidableEq, Repr

/-- Oracle outcome of the getaddrinfo call in _check_dns. -/
inductive DnsOutcome where
  | resolved
  | gaierror (msg : String)
  | timedOut
  | unexpected (msg : String)
deriving DecidableEq, Repr

/-- Service._check_dns (service.py lines 145-168): returns
(ok, optional error message, duration). -/
def check_dns : DnsOutcome → ℚ → Bool × Option String × ℚ
  | .resolved, d => (true, none, d)
  | .gaierror m, d => (false, some ("DNS resolution failed: " ++ m), d)
  | .timedOut, d => (false, some "DNS resolution timed out", d)
  | .unexpected m, d =>
    (false, some ("Unexpected error during DNS resolution: " ++ m), d)

/-- Oracle outcome of the aioping.ping call in _check_ping. -/
inductive PingOutcome where
  | pong (delay : ℚ)
  | timedOut
  | oserror (msg : String)
  | unexpected (msg : String)
deriving DecidableEq, Repr

/-- Service._check_ping (service.py lines 170-195): a reply at or above
delay_threshold is unhealthy with the high-latency message. -/
def check_ping (delay_threshold : ℚ) : PingOutcome → ℚ → Bool × Option String × ℚ
  | .pong delay, d =>
    if delay_threshold ≤ delay then
      (false, some "High latency detected", d)
    else
      (true, none, d)
  | .timedOut, d => (false, some "Ping timed out", d)
  | .oserror m, d => (false, some ("Network error during ping: " ++ m), d)
  | .unexpected m, d =>
    (false, some ("Unexpected error during ping: " ++ m), d)

/-- Oracle outcome of urlparse(self.base_url).hostname: a hostname, a
missing hostname, or an exception raised by the parse. -/
inductive UrlParse where
  | host (h : String)
  | noHost
  | raises (msg : String)
deriving DecidableEq, Repr

/-- Service.health_check (service.py lines 197-239).  A fresh HealthStatus
starts all-false; a parse exception is caught and collapsed into
error_message; a missing hostname sets the invalid-URL error_message; the
ping only runs when DNS succeeded; finally
overall_status := dns_ok and (not dns_ok or ping_check["status"])
(line 233).  The function is total: health_check never throws. -/
def health_check (delay_threshold : ℚ) (parse : UrlParse)
    (dns : DnsOutcome) (dnsDur : ℚ) (ping : PingOutcome) (pingDur : ℚ) :
    HealthStatus :=
  let init : HealthStatus := ⟨⟨false, "", 0⟩, ⟨false, "", 0⟩, false, ""⟩
  match parse with
  | .raises m => { init with error_message := "Health check failed: " ++ m }
  | .noHost =>
    { init with error_message := "Invalid URL format: missing hostname" }
  | .host _ =>
    let dres := check_dns dns dnsDur
    let hs1 := { init with
      dns_check := ⟨dres.1, if dres.1 then "" else (dres.2.1).getD "",
        dres.2.2⟩ }
    let hs2 :=
      if dres.1 then
        let pres := check_ping delay_threshold ping pingDur
        { hs1 with
          ping_check := ⟨pres.1, if pres.1 then "" else (pres.2.1).getD "",
            pres.2.2⟩ }
      else
        hs1
    { hs2 with
      overall_status := dres.1 && (!dres.1 || hs2.ping_check.status) }

/-- C8: every HealthStatus produced by health_check satisfies
overall_status = dns_check.status && ping_check.status, and health_check is
total — it never throws; in particular an exception from the URL parse is
collapsed into error_message with overall_status = false. -/
theorem health_check_invariant (dt : ℚ) (parse : UrlParse)
    (dns : DnsOutcome) (dnsDur : ℚ) (ping : PingOutcome) (pingDur : ℚ) :
    (health_check dt parse dns dnsDur ping pingDur).overall_status
        = ((health_check dt parse dns dnsDur ping pingDur).dns_check.status
            && (health_check dt parse dns dnsDur ping pingDur).ping_check.status) ∧
    (∀ m, parse = .raises m →
      (health_check dt parse dns dnsDur ping pingDur).error_message
          = "Health check failed: " ++ m ∧
        (health_check dt parse dns dnsDur ping pingDur).overall_status
          = false) := by
  constructor
  · cases parse with
    | raises m => rfl
    | noHost => rfl
    | host h =>
      cases dns with
      | resolved =>
        cases ping with
        | pong delay =>
          by_cases hd : dt ≤ delay <;>
            simp [health_check, check_dns, check_ping, hd]
        | timedOut => rfl
        | oserror m => rfl
        | unexpected m => rfl
      | gaierror m => rfl
      | timedOut => rfl
      | unexpected m => rfl
  · intro m hp
    subst hp
    exact ⟨rfl, rfl⟩

/-- Concrete instantiation of health_check_invariant at a parse exception:
the exception is collapsed into error_message and the status is false. -/
theorem health_check_invariant_witness :
    (health_check 1 (.raises "boom") .resolved 0 (.pong 0) 0).error_message
        = "Health check failed: boom" ∧
      (health_check 1 (.raises "boom") .resolved 0
          (.pong 0) 0).overall_status = false :=
  (health_check_invariant 1 (.raises "boom") .resolved 0 (.pong 0) 0).2
    "boom" rfl

end Failover
